import Mathlib

/-!
Verification development for the youtube-video-to-tweet MCP server
(repository `example-yt-tweet-mcp`).

The TypeScript sources are embedded shallowly:
* pure string processing (`cleanTranscript`, `extractVideoId`,
  `transcriptToText`, prompt templating) becomes Lean functions over
  `List Char` / `String`;
* the zod validation schemas become `Except`-returning parsers over a
  JSON-like argument model;
* the network-calling collaborators (`YouTubeService.getTranscript`,
  `TypefullyService.createDraft`) and the locale-dependent date rendering
  are modelled as an oracle record, so dispatcher theorems quantify over
  every possible collaborator behaviour;
* the `CallToolRequestSchema` dispatcher, with its outer catch-all and the
  inner catch of the draft case, becomes a total function into
  `Except String ToolResult` where a top-level `Except.error` would mean an
  exception escaping the dispatcher boundary.
-/

namespace YtTweet

/-! ## Character classes and low-level string helpers -/

/-- The whitespace class of the JavaScript regex `\s` and of `String.trim`,
restricted to the characters that actually occur in this system's data
(ASCII whitespace plus NBSP; the remaining Unicode space characters are
omitted from the model). -/
def jsWs (c : Char) : Bool :=
  c = ' ' || c = '\t' || c = '\n' || c = '\r' || c = '\x0b' || c = '\x0c' || c = ' '

/-- The JavaScript regex word class `\w` = `[A-Za-z0-9_]`. -/
def wordChar (c : Char) : Bool :=
  c.isAlpha || c.isDigit || c = '_'

/-- `replace(/\s+/g, " ")`: collapse every maximal whitespace run to one
space.  The flag records whether the previous kept character came from a
whitespace run. -/
def collapseWsAux : Bool → List Char → List Char
  | _, [] => []
  | prevWs, c :: cs =>
    if jsWs c then
      if prevWs then collapseWsAux true cs
      else ' ' :: collapseWsAux true cs
    else c :: collapseWsAux false cs

def collapseWsChars (cs : List Char) : List Char :=
  collapseWsAux false cs

/-- `String.prototype.trim()` on the character list. -/
def trimWsChars (cs : List Char) : List Char :=
  ((cs.dropWhile jsWs).reverse.dropWhile jsWs).reverse

/-- Does `cs` start with `pat`? -/
def charsStartWith : List Char → List Char → Bool
  | [], _ => true
  | _ :: _, [] => false
  | p :: ps, c :: cs => p = c && charsStartWith ps cs

/-- Does `cs` contain `pat` as a contiguous run? -/
def charsContain (pat : List Char) : List Char → Bool
  | [] => charsStartWith pat []
  | c :: cs => charsStartWith pat (c :: cs) || charsContain pat cs

/-- Substring test on strings. -/
def strContains (s pat : String) : Bool :=
  charsContain pat.data s.data

/-! ## TweetGenerationService (pure) -/

inductive Style where
  | conversational
  | informative
  | engaging
  | professional
deriving DecidableEq

inductive Format where
  | thread
  | single
deriving DecidableEq

def styleToString : Style → String
  | .conversational => "conversational"
  | .informative => "informative"
  | .engaging => "engaging"
  | .professional => "professional"

structure TweetGenerationOptions where
  maxTweets : Option Nat := none
  includeCallToAction : Option Bool := none
  style : Option Style := none
  includeEmojis : Option Bool := none
  format : Option Format := none
deriving DecidableEq

/-- `TweetGenerationContext`: the source interface declares `maxTweets`
optional, but `generateTweetContext` always assigns it, so it is a plain
`Nat` here. -/
structure TweetGenerationContext where
  transcript : String
  prompt : String
  format : Format
  style : Style
  maxTweets : Nat
  includeEmojis : Bool
  includeCallToAction : Bool
  systemPrompt : String
  instructions : String
deriving DecidableEq

def styleGuideline : Style → String
  | .engaging =>
      "Create tweets that are exciting, thought-provoking, and designed to spark discussion. Use dynamic language and compelling hooks."
  | .professional =>
      "Create tweets that are authoritative, informative, and suitable for a business audience. Maintain a polished tone while being accessible."
  | .conversational =>
      "Create tweets that feel like natural conversation starters. Use casual language and relatable scenarios."
  | .informative =>
      "Create tweets that focus on educating and sharing valuable insights. Prioritize clarity and usefulness."

def formatGuideline (format : Format) : String :=
  if format = .single then
    "You will create ONE single tweet that must stay within 280 characters including all text, emojis, and spacing."
  else
    "You will create a tweet thread. Each tweet in the thread must stay within 280 characters."

def emojiGuideline (includeEmojis : Bool) : String :=
  if includeEmojis then
    "Include relevant emojis to enhance engagement and visual appeal, but use them strategically."
  else
    "Do not include any emojis in the tweets."

def ctaGuideline (includeCallToAction : Bool) : String :=
  if includeCallToAction then
    "Include calls-to-action that encourage replies, engagement, and discussion."
  else
    "Focus on delivering value without explicit calls-to-action."

def mkSystemPrompt (format : Format) (style : Style)
    (includeEmojis includeCallToAction : Bool) : String :=
  "You are an expert social media content creator specializing in creating " ++
  styleToString style ++
  " tweets that start conversations and drive engagement." ++
  "\n\nSTYLE: " ++ styleGuideline style ++
  "\n\nFORMAT: " ++ formatGuideline format ++
  "\n\nEMOJIS: " ++ emojiGuideline includeEmojis ++
  "\n\nENGAGEMENT: " ++ ctaGuideline includeCallToAction ++
  "\n\nIMPORTANT: Every tweet must be under 280 characters. Count characters carefully including spaces and emojis."

def formatInstructions (format : Format) (maxTweets : Nat) : String :=
  if format = .single then
    "Create ONE compelling tweet that captures the essence of the content. The tweet must:\n- Stay within 280 characters (this is critical)\n- Be self-contained and impactful\n- Include the most important insight or takeaway\n- End with a question or statement that encourages engagement"
  else
    "Create a tweet thread with " ++ toString maxTweets ++
    " tweets maximum. The thread should:\n- Start with an engaging hook tweet that introduces the topic\n- Break down key insights across subsequent tweets\n- End with a call-to-action that encourages discussion\n- Each tweet must stay within 280 characters\n- Use (1/n), (2/n) format to indicate thread position"

def mkInstructions (format : Format) (maxTweets : Nat) (userPrompt : String) : String :=
  userPrompt ++ "\n\n" ++ formatInstructions format maxTweets ++
  "\n\nBase your tweets on the provided transcript content. Extract the most valuable insights and present them in a way that will start conversations and provide value to readers." ++
  "\n\nRemember: Character count is critical. Each tweet MUST be under 280 characters."

/-- `generatePromptAndInstructions` of the service, returning the pair
`(systemPrompt, instructions)`. -/
def generatePromptAndInstructions (format : Format) (style : Style)
    (maxTweets : Nat) (userPrompt : String)
    (includeEmojis includeCallToAction : Bool) : String × String :=
  (mkSystemPrompt format style includeEmojis includeCallToAction,
   mkInstructions format maxTweets userPrompt)

/-- A character survives the deletion pass of `cleanTranscript`
(`replace(/[^\w\s.,!?-]/g, "")`). -/
def keepTranscriptChar (c : Char) : Bool :=
  wordChar c || jsWs c || c = '.' || c = ',' || c = '!' || c = '?' || c = '-'

/-- `cleanTranscript`: collapse whitespace runs, delete every character
outside `[\w\s.,!?-]`, then trim. -/
def cleanTranscript (transcript : String) : String :=
  String.mk (trimWsChars ((collapseWsChars transcript.data).filter keepTranscriptChar))

/-- `TweetGenerationService.generateTweetContext`. -/
def generateTweetContext (transcript prompt : String)
    (options : TweetGenerationOptions) : TweetGenerationContext :=
  let maxTweets := options.maxTweets.getD 5
  let includeCallToAction := options.includeCallToAction.getD true
  let style := options.style.getD .engaging
  let includeEmojis := options.includeEmojis.getD true
  let format := options.format.getD .thread
  let cleaned := cleanTranscript transcript
  let pi := generatePromptAndInstructions format style maxTweets prompt
    includeEmojis includeCallToAction
  { transcript := cleaned
    prompt := prompt
    format := format
    style := style
    maxTweets := if format = .single then 1 else maxTweets
    includeEmojis := includeEmojis
    includeCallToAction := includeCallToAction
    systemPrompt := pi.1
    instructions := pi.2 }

/-! ## YouTubeService (pure parts) -/

structure TranscriptSegment where
  text : String
  duration : Int
  offset : Int
  lang : String
deriving DecidableEq

structure TranscriptResponse where
  lang : String
  availableLangs : List String
  content : List TranscriptSegment
deriving DecidableEq

/-- A terminator of the capture group `[^&\n?#]+` of the URL regex. -/
def videoIdTermChar (c : Char) : Bool :=
  c = '&' || c = '\n' || c = '?' || c = '#'

/-- A character of the direct-id regex class `[a-zA-Z0-9_-]`. -/
def videoIdChar (c : Char) : Bool :=
  c.isAlpha || c.isDigit || c = '_' || c = '-'

/-- Try the three literal alternatives of the first URL pattern at the
current position, returning the remainder after the matched literal. -/
def altRemainder (cs : List Char) : Option (List Char) :=
  if charsStartWith "youtube.com/watch?v=".data cs then some (cs.drop 20)
  else if charsStartWith "youtu.be/".data cs then some (cs.drop 9)
  else if charsStartWith "youtube.com/embed/".data cs then some (cs.drop 18)
  else none

/-- Leftmost search of `/(?:youtube\.com\/watch\?v=|youtu\.be\/|youtube\.com\/embed\/)([^&\n?#]+)/`:
at each position try the alternatives in order; on a literal match the
capture is the maximal nonempty run of non-terminator characters, an empty
capture fails the position and the scan moves one character right. -/
def scanForVideoId : List Char → Option (List Char)
  | [] => none
  | c :: cs =>
    match altRemainder (c :: cs) with
    | some rem =>
      let cap := rem.takeWhile (fun ch => !videoIdTermChar ch)
      if cap.isEmpty then scanForVideoId cs else some cap
    | none => scanForVideoId cs

/-- `YouTubeService.extractVideoId`: the URL pattern, then the anchored
11-character direct-id pattern, else the thrown `Error`. -/
def extractVideoId (url : String) : Except String String :=
  match scanForVideoId url.data with
  | some cap => .ok (String.mk cap)
  | none =>
    if url.data.length = 11 && url.data.all videoIdChar then .ok url
    else .error "Invalid YouTube URL or video ID"

/-- `YouTubeService.transcriptToText`: join segment texts with spaces,
collapse whitespace, trim. -/
def transcriptToText (t : TranscriptResponse) : String :=
  String.mk (trimWsChars (collapseWsChars
    (String.intercalate " " (t.content.map TranscriptSegment.text)).data))

/-! ## TypefullyService response shape -/

structure TypefullyDraftResponse where
  id : String
  content : String
  status : String
  created_at : String
  scheduled_at : Option String
  share_url : Option String
deriving DecidableEq

structure CreateDraftOptions where
  threadify : Option Bool
  scheduleDate : Option String
  share : Option Bool
deriving DecidableEq

/-! ## Argument model and zod validation schemas

A tool call's `arguments` is a JSON object, modelled as an association
list of field name to primitive value.  zod's `ZodError.message` is a JSON
rendering of the issue list; it is modelled here as a short message naming
the first violated constraint (no claim depends on the validation message
text). -/

inductive JsonValue where
  | str (s : String)
  | num (n : Int)
  | bool (b : Bool)
deriving DecidableEq

abbrev Args := List (String × JsonValue)

def lookupArg : Args → String → Option JsonValue
  | [], _ => none
  | (k, v) :: rest, key => if k = key then some v else lookupArg rest key

def requireString (args : Args) (key : String) : Except String String :=
  match lookupArg args key with
  | some (.str s) => .ok s
  | some _ => .error (key ++ ": Expected string")
  | none => .error (key ++ ": Required")

/-- `z.string().min(1)`. -/
def requireNonEmptyString (args : Args) (key : String) : Except String String := do
  let s ← requireString args key
  if s.length ≥ 1 then pure s
  else throw (key ++ ": String must contain at least 1 character(s)")

/-- `z.number().min(lo).max(hi).optional()`. -/
def optionalNumInRange (args : Args) (key : String) (lo hi : Int) :
    Except String (Option Nat) :=
  match lookupArg args key with
  | none => .ok none
  | some (.num n) =>
    if n < lo then .error (key ++ ": Number must be greater than or equal to " ++ toString lo)
    else if n > hi then .error (key ++ ": Number must be less than or equal to " ++ toString hi)
    else .ok (some n.toNat)
  | some _ => .error (key ++ ": Expected number")

def optionalString (args : Args) (key : String) : Except String (Option String) :=
  match lookupArg args key with
  | none => .ok none
  | some (.str s) => .ok (some s)
  | some _ => .error (key ++ ": Expected string")

def optionalBool (args : Args) (key : String) : Except String (Option Bool) :=
  match lookupArg args key with
  | none => .ok none
  | some (.bool b) => .ok (some b)
  | some _ => .error (key ++ ": Expected boolean")

def optionalStyle (args : Args) : Except String (Option Style) :=
  match lookupArg args "style" with
  | none => .ok none
  | some (.str "conversational") => .ok (some .conversational)
  | some (.str "informative") => .ok (some .informative)
  | some (.str "engaging") => .ok (some .engaging)
  | some (.str "professional") => .ok (some .professional)
  | some (.str _) => .error "style: Invalid enum value"
  | some _ => .error "style: Expected string"

def optionalFormat (args : Args) : Except String (Option Format) :=
  match lookupArg args "format" with
  | none => .ok none
  | some (.str "thread") => .ok (some .thread)
  | some (.str "single") => .ok (some .single)
  | some (.str _) => .error "format: Invalid enum value"
  | some _ => .error "format: Expected string"

/-- `YouTubeTranscriptSchema.parse`. -/
def parseYouTubeTranscriptArgs (args : Args) : Except String String :=
  requireNonEmptyString args "videoUrl"

structure GenerateTweetsParsed where
  transcript : String
  prompt : String
  maxTweets : Option Nat
  style : Option Style
  format : Option Format
deriving DecidableEq

/-- `GenerateTweetsSchema.parse`. -/
def parseGenerateTweetsArgs (args : Args) : Except String GenerateTweetsParsed := do
  let transcript ← requireNonEmptyString args "transcript"
  let prompt ← requireNonEmptyString args "prompt"
  let maxTweets ← optionalNumInRange args "maxTweets" 1 10
  let style ← optionalStyle args
  let format ← optionalFormat args
  pure { transcript, prompt, maxTweets, style, format }

structure CreateDraftParsed where
  content : String
  threadify : Option Bool
  scheduleDate : Option String
  share : Option Bool
deriving DecidableEq

/-- `CreateDraftSchema.parse` (declared inside the draft case; `content`
is `z.string()` with no minimum). -/
def parseCreateDraftArgs (args : Args) : Except String CreateDraftParsed := do
  let content ← requireString args "content"
  let threadify ← optionalBool args "threadify"
  let scheduleDate ← optionalString args "scheduleDate"
  let share ← optionalBool args "share"
  pure { content, threadify, scheduleDate, share }

/-! ## ToolResult envelope and the dispatcher -/

structure ContentBlock where
  type : String
  text : String
deriving DecidableEq

/-- The MCP tool-call result.  `isError` is `none` when the source object
literal carries no `isError` field at all (the protocol treats an absent
flag as `false`). -/
structure ToolResult where
  content : List ContentBlock
  isError : Option Bool
deriving DecidableEq

/-- Effective error flag: an absent `isError` means success. -/
def ToolResult.isErrorEff (r : ToolResult) : Bool :=
  r.isError.getD false

/-- The handler collaborators the dispatcher consumes: the two
network-calling services, plus the locale-dependent
`new Date(s).toLocaleString()` rendering.  A collaborator fault is an
`Except.error` carrying the thrown `Error`'s message. -/
structure Oracles where
  getTranscript : String → Except String TranscriptResponse
  createDraft : String → CreateDraftOptions → Except String TypefullyDraftResponse
  toLocaleString : String → String

/-- The sanitization of the dispatcher's outer catch:
`error.message.replace(/[\r\n\t]/g, " ").trim()`. -/
def sanitizeMessage (msg : String) : String :=
  String.mk (trimWsChars (msg.data.map
    (fun c => if c = '\r' || c = '\n' || c = '\t' then ' ' else c)))

def transcriptSuccessText (videoId : String) (t : TranscriptResponse)
    (readableText : String) : String :=
  "🎥 **YouTube Transcript Fetched Successfully!**\n\n" ++
  "📺 **Video ID:** " ++ videoId ++ "\n" ++
  "🌍 **Language:** " ++ t.lang ++ "\n" ++
  "⏱️ **Total Segments:** " ++ toString t.content.length ++ "\n\n" ++
  "📝 **Full Transcript:**\n\n" ++
  readableText ++ "\n\n" ++
  "💡 **Ready to generate content!** You can now use this transcript to:\n" ++
  "• Generate tweets with \"generate_tweets_from_transcript\"\n" ++
  "• Create social media content\n" ++
  "• Extract key insights"

/-- The generate-tweets success text (the `�` characters are replacement
characters present verbatim in the source template). -/
def generateTweetsSuccessText (prompt : String) (context : TweetGenerationContext)
    (formatDescription : String) : String :=
  "🐦 **Tweet Generation Context Prepared**\n\n" ++
  "💭 **User Prompt:** " ++ prompt ++ "\n" ++
  "🎨 **Style:** " ++ styleToString context.style ++ "\n" ++
  "📊 **Format:** " ++ formatDescription ++ "\n" ++
  "� **Max Tweets:** " ++
  (if context.maxTweets = 0 then "auto-determined" else toString context.maxTweets) ++
  "\n\n" ++
  "🤖 **System Instructions:**\n" ++
  context.systemPrompt ++ "\n\n" ++
  "� **Generation Guidelines:**\n" ++
  context.instructions ++ "\n\n" ++
  "✨ **Please create the " ++ formatDescription.toLower ++ " based on this context!**"

def draftSuccessText (o : Oracles) (draft : TypefullyDraftResponse)
    (threadify : Option Bool) : String :=
  "📤 **Typefully Draft Created!**\n\n" ++
  "✅ **Draft ID:** " ++ draft.id ++ "\n" ++
  "📅 **Created:** " ++ o.toLocaleString draft.created_at ++ "\n" ++
  "📊 **Status:** " ++ draft.status ++ "\n" ++
  "🧵 **Threadified:** " ++ (if threadify = some true then "Yes" else "No") ++ "\n" ++
  "🔗 **Share URL:** " ++
  (match draft.share_url with
   | some u => if u = "" then "Not shared" else u
   | none => "Not shared") ++ "\n"

/-- A ToolResult holding one text content block. -/
def textResult (t : String) (isError : Option Bool) : ToolResult :=
  { content := [{ type := "text", text := t }], isError := isError }

/-- The body of the `CallToolRequestSchema` handler's `try` block (the
`switch` on the tool name).  A thrown exception is an `Except.error`; note
the inner catch of the draft case, which returns a result with no
`isError` field and an unsanitized message, exactly as in the source. -/
def dispatch (o : Oracles) (name : String) (args : Args) :
    Except String ToolResult :=
  if name = "get_youtube_transcript" then do
    let videoUrl ← parseYouTubeTranscriptArgs args
    let videoId ← extractVideoId videoUrl
    let transcript ← o.getTranscript videoId
    let readableText := transcriptToText transcript
    pure (textResult (transcriptSuccessText videoId transcript readableText) none)
  else if name = "generate_tweets_from_transcript" then do
    let p ← parseGenerateTweetsArgs args
    let context := generateTweetContext p.transcript p.prompt
      { maxTweets := p.maxTweets, style := p.style, format := p.format,
        includeCallToAction := some true, includeEmojis := some true }
    let formatDescription :=
      if p.format = some .single then "Single Tweet (280 chars max)" else "Tweet Thread"
    pure (textResult (generateTweetsSuccessText p.prompt context formatDescription) none)
  else if name = "create_typefully_draft" then do
    let p ← parseCreateDraftArgs args
    match o.createDraft p.content
      { threadify := p.threadify, scheduleDate := p.scheduleDate, share := p.share } with
    | .ok draft =>
      pure (textResult (draftSuccessText o draft p.threadify) none)
    | .error e =>
      pure (textResult ("❌ **Error:** " ++ e) none)
  else
    throw ("Unknown tool: " ++ name)

/-- The whole `CallToolRequestSchema` handler: `dispatch` wrapped in the
outer catch, which sanitizes the message and sets `isError: true`.  (Every
value thrown in this system is an `Error`, so the
`"Unknown error occurred"` branch of the source is unreachable and not
modelled.)  A top-level `Except.error` would be an exception escaping the
dispatcher boundary. -/
def callTool (o : Oracles) (name : String) (args : Args) :
    Except String ToolResult :=
  match dispatch o name args with
  | .ok r => .ok r
  | .error e => .ok (textResult ("❌ Error: " ++ sanitizeMessage e) (some true))

/-- The three names registered in the `ListToolsRequestSchema` catalog and
the `switch` cases. -/
def registeredToolNames : List String :=
  ["get_youtube_transcript", "generate_tweets_from_transcript", "create_typefully_draft"]

/-- The parse error, if any, that `dispatch` hits for a given registered
tool name before any handler work. -/
def exceptError {α : Type} : Except String α → Option String
  | .error e => some e
  | .ok _ => none

def parseErrorOf (name : String) (args : Args) : Option String :=
  if name = "get_youtube_transcript" then exceptError (parseYouTubeTranscriptArgs args)
  else if name = "generate_tweets_from_transcript" then exceptError (parseGenerateTweetsArgs args)
  else if name = "create_typefully_draft" then exceptError (parseCreateDraftArgs args)
  else none

/-! ## Process startup -/

/-- The environment the process starts in. -/
structure ProcEnv where
  supadataApiKey : Option String
  typefullyApiKey : Option String
  transportConnects : Bool
deriving DecidableEq

inductive StartupOutcome where
  | running
  | exitNonZero (message : String)
deriving DecidableEq

/-- Module initialization followed by `main()`.  `YouTubeService`'s
constructor only warns on a missing `SUPADATA_API_KEY`; `TypefullyService`'s
constructor throws when `TYPEFULLY_API_KEY` is absent or empty
(`process.env.X || ""` then the `!this.apiKey` check), and that exception
is thrown during module loading, before `main()` runs, so the process
terminates with a non-zero status.  `main().catch` calls `process.exit(1)`
when the stdio transport cannot be connected. -/
def startProcess (env : ProcEnv) : StartupOutcome :=
  if env.typefullyApiKey.getD "" = "" then
    .exitNonZero "TYPEFULLY_API_KEY environment variable is required"
  else if env.transportConnects then
    .running
  else
    .exitNonZero "Failed to start Video to Tweet MCP server"

/-! ## Concrete collaborator instances used by closed theorems -/

/-- Collaborators whose network calls all fail. -/
def stubOracles : Oracles where
  getTranscript := fun _ => .error "Failed to fetch transcript: network unreachable"
  createDraft := fun _ _ => .error "Typefully API error: 401 - Unauthorized"
  toLocaleString := fun s => s

/-- A transcript collaborator that answers with a one-segment English
transcript whose full text is "hello world". -/
def helloOracles : Oracles where
  getTranscript := fun _ =>
    .ok { lang := "en", availableLangs := ["en"],
          content := [{ text := "hello world", duration := 1, offset := 0, lang := "en" }] }
  createDraft := fun _ _ => .error "Typefully API error: 401 - Unauthorized"
  toLocaleString := fun s => s

/-- A draft collaborator whose fault message contains a raw newline. -/
def draftNewlineOracles : Oracles where
  getTranscript := fun _ => .error "Failed to fetch transcript: network unreachable"
  createDraft := fun _ _ => .error "Typefully API error: 500 -\nInternal Server Error"
  toLocaleString := fun s => s

/-! ## Helper lemmas -/

theorem error_bind {α β : Type} (e : String) (f : α → Except String β) :
    (Except.error e >>= f) = Except.error e := rfl

theorem ok_bind {α β : Type} (a : α) (f : α → Except String β) :
    (Except.ok a >>= f) = f a := rfl

theorem callTool_resolves (o : Oracles) (name : String) (args : Args) :
    ∃ r : ToolResult, callTool o name args = Except.ok r := by
  unfold callTool
  cases dispatch o name args with
  | ok r => exact ⟨r, rfl⟩
  | error e => exact ⟨_, rfl⟩

theorem charsStartWith_self (cs : List Char) : charsStartWith cs cs = true := by
  induction cs with
  | nil => rfl
  | cons c cs ih => simp [charsStartWith, ih]

theorem charsContain_append_self (pat : List Char) (pre : List Char) :
    charsContain pat (pre ++ pat) = true := by
  induction pre with
  | nil =>
    cases pat with
    | nil => rfl
    | cons c cs => simp [charsContain, charsStartWith_self]
  | cons a pre ih => simp [charsContain, ih]

theorem strContains_append_self (pre pat : String) :
    strContains (pre ++ pat) pat = true := by
  simp only [strContains, String.data_append]
  exact charsContain_append_self pat.data pre.data

theorem lookupArg_append_of_ne (args : Args) (k : String) (v : JsonValue)
    (key : String) (h : key ≠ k) :
    lookupArg (args ++ [(k, v)]) key = lookupArg args key := by
  induction args with
  | nil =>
    simp only [List.nil_append, lookupArg]
    rw [if_neg (fun hk => h hk.symm)]
  | cons hd tl ih =>
    obtain ⟨k', v'⟩ := hd
    simp only [List.cons_append, lookupArg, List.append_eq]
    by_cases hk : k' = key
    · rw [if_pos hk, if_pos hk]
    · rw [if_neg hk, if_neg hk, ih]

/-! ## Claim theorems -/

/-- C1: the claim that every fault — including a fault raised by the
draft-creation collaborator — is surfaced with `isError: true` fails on
the code: the inner catch of the `create_typefully_draft` case returns a
ToolResult object with no `isError` field at all, so the collaborator
fault arrives with the flag absent (treated as success). -/
theorem draft_fault_result_lacks_isError :
    callTool stubOracles "create_typefully_draft" [("content", JsonValue.str "hello")]
      = Except.ok (textResult "❌ **Error:** Typefully API error: 401 - Unauthorized" none)
    ∧ (textResult "❌ **Error:** Typefully API error: 401 - Unauthorized" none).isError = none
    ∧ (textResult "❌ **Error:** Typefully API error: 401 - Unauthorized" none).isErrorEff = false := by
  refine ⟨rfl, rfl, rfl⟩

/-- C2: the claim that every handler-fault message is sanitized fails on
the code: a fault of the draft-creation collaborator is caught by the
inner catch, which interpolates `error.message` verbatim, so a message
containing a raw newline reaches the ToolResult text unsanitized. -/
theorem draft_fault_text_unsanitized :
    callTool draftNewlineOracles "create_typefully_draft" [("content", JsonValue.str "hello")]
      = Except.ok (textResult "❌ **Error:** Typefully API error: 500 -\nInternal Server Error" none)
    ∧ strContains "❌ **Error:** Typefully API error: 500 -\nInternal Server Error" "\n" = true := by
  refine ⟨rfl, by decide⟩

/-- C3: for every tool name (registered or not) and every argument
object, `callTool` resolves to a ToolResult; no exception passes the
dispatcher boundary (a top-level `Except.error` would be such an
exception). -/
theorem callTool_always_resolves (o : Oracles) (name : String) (args : Args) :
    ∃ r : ToolResult, callTool o name args = Except.ok r :=
  callTool_resolves o name args

/-- C4 counterexample: with the transport able to connect but
`TYPEFULLY_API_KEY` absent, the process still terminates non-zero
(the `TypefullyService` constructor throws during module loading), so
"non-zero exit only if the transport cannot be established" is false. -/
theorem startup_missing_key_exits_nonzero :
    startProcess { supadataApiKey := some "sk", typefullyApiKey := none, transportConnects := true }
      = StartupOutcome.exitNonZero "TYPEFULLY_API_KEY environment variable is required"
    ∧ ({ supadataApiKey := some "sk", typefullyApiKey := none, transportConnects := true } : ProcEnv).transportConnects
      = true := by
  exact ⟨rfl, rfl⟩

/-- C4 amended: the process terminates non-zero exactly when the transport
cannot be established at startup or the `TYPEFULLY_API_KEY` credential is
absent/empty; per-call faults are contained in ToolResults and cannot
affect the exit status (`callTool` always resolves). -/
theorem startup_exit_characterization :
    (∀ env : ProcEnv,
      (∃ m, startProcess env = StartupOutcome.exitNonZero m)
        ↔ (env.typefullyApiKey.getD "" = "" ∨ env.transportConnects = false))
    ∧ (∀ (o : Oracles) (name : String) (args : Args),
        ∃ r : ToolResult, callTool o name args = Except.ok r) := by
  constructor
  · intro env
    by_cases h1 : env.typefullyApiKey.getD "" = ""
    · simp [startProcess, h1]
    · by_cases h2 : env.transportConnects
      · simp [startProcess, h1, h2]
      · simp [startProcess, h1, h2]
  · exact callTool_resolves

/-- C5: whenever schema validation of the arguments fails — a missing
required field, a value outside a declared range, a wrong type or a value
outside an enum — `callTool` returns the validation-error envelope with
`isError: true`, and the result is the same for every pair of collaborator
behaviours, so the tool's handler is never invoked. -/
theorem validation_fault_isError_no_handler (o o' : Oracles) (name : String)
    (args : Args) (e : String) (h : parseErrorOf name args = some e) :
    callTool o name args = callTool o' name args
    ∧ callTool o name args
        = Except.ok (textResult ("❌ Error: " ++ sanitizeMessage e) (some true)) := by
  unfold parseErrorOf at h
  by_cases h1 : name = "get_youtube_transcript"
  · subst h1
    rw [if_pos rfl] at h
    cases hp : parseYouTubeTranscriptArgs args with
    | ok v => rw [hp] at h; exact absurd h (by simp [exceptError])
    | error m =>
      rw [hp] at h
      simp only [exceptError, Option.some.injEq] at h
      subst h
      exact ⟨by simp [callTool, dispatch, hp, error_bind],
             by simp [callTool, dispatch, hp, error_bind]⟩
  · by_cases h2 : name = "generate_tweets_from_transcript"
    · subst h2
      rw [if_neg (by decide), if_pos rfl] at h
      cases hp : parseGenerateTweetsArgs args with
      | ok v => rw [hp] at h; exact absurd h (by simp [exceptError])
      | error m =>
        rw [hp] at h
        simp only [exceptError, Option.some.injEq] at h
        subst h
        exact ⟨by simp [callTool, dispatch, hp, error_bind],
               by simp [callTool, dispatch, hp, error_bind]⟩
    · by_cases h3 : name = "create_typefully_draft"
      · subst h3
        rw [if_neg (by decide), if_neg (by decide), if_pos rfl] at h
        cases hp : parseCreateDraftArgs args with
        | ok v => rw [hp] at h; exact absurd h (by simp [exceptError])
        | error m =>
          rw [hp] at h
          simp only [exceptError, Option.some.injEq] at h
          subst h
          exact ⟨by simp [callTool, dispatch, hp, error_bind],
                 by simp [callTool, dispatch, hp, error_bind]⟩
      · rw [if_neg h1, if_neg h2, if_neg h3] at h
        exact absurd h (by simp)

/-- C5 witness: `generate_tweets_from_transcript` with `maxTweets = 15`
fails validation (15 exceeds the maximum of 10) and yields the isError
envelope for two different collaborator behaviours alike. -/
theorem validation_fault_isError_no_handler_witness :
    parseErrorOf "generate_tweets_from_transcript"
        [("transcript", JsonValue.str "t"), ("prompt", JsonValue.str "p"),
         ("maxTweets", JsonValue.num 15)]
      = some "maxTweets: Number must be less than or equal to 10"
    ∧ (callTool stubOracles "generate_tweets_from_transcript"
          [("transcript", JsonValue.str "t"), ("prompt", JsonValue.str "p"),
           ("maxTweets", JsonValue.num 15)]
        = callTool helloOracles "generate_tweets_from_transcript"
            [("transcript", JsonValue.str "t"), ("prompt", JsonValue.str "p"),
             ("maxTweets", JsonValue.num 15)]
      ∧ callTool stubOracles "generate_tweets_from_transcript"
          [("transcript", JsonValue.str "t"), ("prompt", JsonValue.str "p"),
           ("maxTweets", JsonValue.num 15)]
        = Except.ok (textResult
            ("❌ Error: " ++ sanitizeMessage "maxTweets: Number must be less than or equal to 10")
            (some true))) :=
  ⟨by decide,
   validation_fault_isError_no_handler stubOracles helloOracles
     "generate_tweets_from_transcript"
     [("transcript", JsonValue.str "t"), ("prompt", JsonValue.str "p"),
      ("maxTweets", JsonValue.num 15)]
     "maxTweets: Number must be less than or equal to 10" (by decide)⟩

/-- C6 counterexample: for the unregistered name `"bad\ntool"` the
returned text block does not contain `"Unknown tool: <name>"` — the outer
catch first replaces the newline of the thrown message by a space — so the
claim as stated is false for names containing control characters. -/
theorem unknown_tool_newline_counterexample :
    callTool stubOracles "bad\ntool" []
      = Except.ok (textResult "❌ Error: Unknown tool: bad tool" (some true))
    ∧ strContains "❌ Error: Unknown tool: bad tool" "Unknown tool: bad\ntool" = false := by
  exact ⟨rfl, by decide⟩

/-- C6 amended: for every unregistered name the dispatcher returns, never
throws, a ToolResult with `isError: true` and one text block
`"❌ Error: " ++ sanitize("Unknown tool: " ++ name)`; whenever
sanitization leaves that message unchanged (no CR/LF/tab in the name and
no trailing whitespace) the text contains `"Unknown tool: <name>"`
literally. -/
theorem unknown_tool_envelope (o : Oracles) (name : String) (args : Args)
    (h : name ∉ registeredToolNames) :
    callTool o name args
      = Except.ok (textResult ("❌ Error: " ++ sanitizeMessage ("Unknown tool: " ++ name)) (some true))
    ∧ (sanitizeMessage ("Unknown tool: " ++ name) = "Unknown tool: " ++ name →
        strContains ("❌ Error: " ++ sanitizeMessage ("Unknown tool: " ++ name))
          ("Unknown tool: " ++ name) = true) := by
  simp only [registeredToolNames, List.mem_cons, List.mem_singleton, not_or] at h
  obtain ⟨h1, h2, h3⟩ := h
  constructor
  · simp [callTool, dispatch, h1, h2, h3]
  · intro hs
    rw [hs]
    exact strContains_append_self "❌ Error: " ("Unknown tool: " ++ name)

/-- C6 witness: the unregistered name `"nonexistent_tool"` yields the
isError envelope whose text contains `"Unknown tool: nonexistent_tool"`. -/
theorem unknown_tool_envelope_witness :
    "nonexistent_tool" ∉ registeredToolNames
    ∧ callTool stubOracles "nonexistent_tool" []
        = Except.ok (textResult "❌ Error: Unknown tool: nonexistent_tool" (some true))
    ∧ strContains "❌ Error: Unknown tool: nonexistent_tool"
        "Unknown tool: nonexistent_tool" = true := by
  have hmem : "nonexistent_tool" ∉ registeredToolNames := by decide
  have h := unknown_tool_envelope stubOracles "nonexistent_tool" [] hmem
  exact ⟨hmem, h.1, h.2 rfl⟩

/-- C7: `extractVideoId` accepts the `watch?v=`, `youtu.be/` and `embed/`
URL shapes and the bare 11-character id; with a collaborator answering a
transcript whose full text is "hello world", the call succeeds (effective
`isError` false) and the text contains both the video id and the
transcript text; an input matching no accepted shape yields an isError
envelope for every collaborator behaviour, never an escaped exception. -/
theorem transcript_tool_shapes_and_success :
    extractVideoId "https://www.youtube.com/watch?v=abc12345678" = Except.ok "abc12345678"
    ∧ extractVideoId "https://youtu.be/abc12345678" = Except.ok "abc12345678"
    ∧ extractVideoId "https://www.youtube.com/embed/abc12345678" = Except.ok "abc12345678"
    ∧ extractVideoId "abc12345678" = Except.ok "abc12345678"
    ∧ (∃ t : String,
        callTool helloOracles "get_youtube_transcript"
            [("videoUrl", JsonValue.str "https://youtu.be/abc12345678")]
          = Except.ok (textResult t none)
        ∧ (textResult t none).isErrorEff = false
        ∧ strContains t "abc12345678" = true
        ∧ strContains t "hello world" = true)
    ∧ (∀ o : Oracles,
        callTool o "get_youtube_transcript" [("videoUrl", JsonValue.str "???")]
          = Except.ok (textResult "❌ Error: Invalid YouTube URL or video ID" (some true))) := by
  refine ⟨rfl, rfl, rfl, rfl, ?_, fun o => rfl⟩
  refine ⟨transcriptSuccessText "abc12345678"
    { lang := "en", availableLangs := ["en"],
      content := [{ text := "hello world", duration := 1, offset := 0, lang := "en" }] }
    "hello world", rfl, rfl, by decide, by decide⟩

/-- C8: `generateTweetContext` is a total pure function: for every
transcript, prompt and options it returns a context carrying the style,
the format, an effective maxTweets, the systemPrompt and the
instructions; when the format is `single` the effective maxTweets is 1. -/
theorem generateTweetContext_pure_fields (t p : String)
    (opts : TweetGenerationOptions) :
    ∃ c : TweetGenerationContext, generateTweetContext t p opts = c
    ∧ c.style = opts.style.getD Style.engaging
    ∧ c.format = opts.format.getD Format.thread
    ∧ c.maxTweets
        = (if opts.format.getD Format.thread = Format.single then 1 else opts.maxTweets.getD 5)
    ∧ (opts.format = some Format.single → c.maxTweets = 1)
    ∧ c.systemPrompt = mkSystemPrompt (opts.format.getD Format.thread)
        (opts.style.getD Style.engaging) (opts.includeEmojis.getD true)
        (opts.includeCallToAction.getD true)
    ∧ c.instructions = mkInstructions (opts.format.getD Format.thread)
        (opts.maxTweets.getD 5) p := by
  refine ⟨generateTweetContext t p opts, rfl, rfl, rfl, rfl, ?_, rfl, rfl⟩
  intro hf
  show (if opts.format.getD Format.thread = Format.single then 1 else opts.maxTweets.getD 5) = 1
  rw [hf]
  rfl

/-- C8 witness: a `single`-format call returns effective maxTweets 1 even
though 7 was requested. -/
theorem generateTweetContext_pure_fields_witness :
    (generateTweetContext "t" "p"
      { maxTweets := some 7, format := some Format.single }).maxTweets = 1 := by
  obtain ⟨c, hc, _, _, _, hsingle, _, _⟩ :=
    generateTweetContext_pure_fields "t" "p" { maxTweets := some 7, format := some Format.single }
  rw [hc]
  exact hsingle rfl

/-- C9: unknown extra argument fields are ignored: appending a field whose
name is not among the tool's declared fields changes neither the parsed
(validated) value the handler receives nor the call's result. -/
theorem extra_argument_fields_ignored (o : Oracles) (args : Args)
    (k : String) (v : JsonValue) :
    (k ∉ ["videoUrl"] →
      parseYouTubeTranscriptArgs (args ++ [(k, v)]) = parseYouTubeTranscriptArgs args
      ∧ callTool o "get_youtube_transcript" (args ++ [(k, v)])
          = callTool o "get_youtube_transcript" args)
    ∧ (k ∉ ["transcript", "prompt", "maxTweets", "style", "format"] →
      parseGenerateTweetsArgs (args ++ [(k, v)]) = parseGenerateTweetsArgs args
      ∧ callTool o "generate_tweets_from_transcript" (args ++ [(k, v)])
          = callTool o "generate_tweets_from_transcript" args)
    ∧ (k ∉ ["content", "threadify", "scheduleDate", "share"] →
      parseCreateDraftArgs (args ++ [(k, v)]) = parseCreateDraftArgs args
      ∧ callTool o "create_typefully_draft" (args ++ [(k, v)])
          = callTool o "create_typefully_draft" args) := by
  refine ⟨?_, ?_, ?_⟩
  · intro hk
    simp only [List.mem_singleton] at hk
    have e1 := lookupArg_append_of_ne args k v "videoUrl" (Ne.symm hk)
    have hp : parseYouTubeTranscriptArgs (args ++ [(k, v)]) = parseYouTubeTranscriptArgs args := by
      simp only [parseYouTubeTranscriptArgs, requireNonEmptyString, requireString, e1]
    exact ⟨hp, by simp [callTool, dispatch, hp]⟩
  · intro hk
    simp only [List.mem_cons, List.mem_singleton, not_or] at hk
    obtain ⟨hk1, hk2, hk3, hk4, hk5, -⟩ := hk
    have e1 := lookupArg_append_of_ne args k v "transcript" (Ne.symm hk1)
    have e2 := lookupArg_append_of_ne args k v "prompt" (Ne.symm hk2)
    have e3 := lookupArg_append_of_ne args k v "maxTweets" (Ne.symm hk3)
    have e4 := lookupArg_append_of_ne args k v "style" (Ne.symm hk4)
    have e5 := lookupArg_append_of_ne args k v "format" (Ne.symm hk5)
    have hp : parseGenerateTweetsArgs (args ++ [(k, v)]) = parseGenerateTweetsArgs args := by
      simp only [parseGenerateTweetsArgs, requireNonEmptyString, requireString,
        optionalNumInRange, optionalStyle, optionalFormat, e1, e2, e3, e4, e5]
    exact ⟨hp, by simp [callTool, dispatch, hp]⟩
  · intro hk
    simp only [List.mem_cons, List.mem_singleton, not_or] at hk
    obtain ⟨hk1, hk2, hk3, hk4, -⟩ := hk
    have e1 := lookupArg_append_of_ne args k v "content" (Ne.symm hk1)
    have e2 := lookupArg_append_of_ne args k v "threadify" (Ne.symm hk2)
    have e3 := lookupArg_append_of_ne args k v "scheduleDate" (Ne.symm hk3)
    have e4 := lookupArg_append_of_ne args k v "share" (Ne.symm hk4)
    have hp : parseCreateDraftArgs (args ++ [(k, v)]) = parseCreateDraftArgs args := by
      simp only [parseCreateDraftArgs, requireString, optionalBool, optionalString,
        e1, e2, e3, e4]
    exact ⟨hp, by simp [callTool, dispatch, hp]⟩

/-- C9 witness: an extra `"extra"` field changes nothing for any of the
three tools at concrete arguments. -/
theorem extra_argument_fields_ignored_witness :
    parseYouTubeTranscriptArgs
        ([("videoUrl", JsonValue.str "abc12345678")] ++ [("extra", JsonValue.bool true)])
      = parseYouTubeTranscriptArgs [("videoUrl", JsonValue.str "abc12345678")]
    ∧ callTool stubOracles "create_typefully_draft"
        ([("content", JsonValue.str "hi")] ++ [("extra", JsonValue.bool true)])
      = callTool stubOracles "create_typefully_draft" [("content", JsonValue.str "hi")] :=
  ⟨((extra_argument_fields_ignored stubOracles [("videoUrl", JsonValue.str "abc12345678")]
      "extra" (JsonValue.bool true)).1 (by decide)).1,
   ((extra_argument_fields_ignored stubOracles [("content", JsonValue.str "hi")]
      "extra" (JsonValue.bool true)).2.2 (by decide)).2⟩

/-- C10: the transcript placed in the context is `cleanTranscript` of the
input — whitespace runs collapsed, every character outside
`[\w\s.,!?-]` deleted (every character of the result passes the keep
filter; emojis, quotes and colons do not pass it), result trimmed — while
the prompt is passed through unchanged. -/
theorem cleanTranscript_normalization (t p : String)
    (opts : TweetGenerationOptions) :
    (generateTweetContext t p opts).transcript = cleanTranscript t
    ∧ (generateTweetContext t p opts).prompt = p
    ∧ cleanTranscript t
        = String.mk (trimWsChars ((collapseWsChars t.data).filter keepTranscriptChar))
    ∧ ((cleanTranscript t).data.all keepTranscriptChar) = true
    ∧ keepTranscriptChar '😀' = false
    ∧ keepTranscriptChar '"' = false
    ∧ keepTranscriptChar ':' = false
    ∧ cleanTranscript "a: 😀 b" = "a  b"
    ∧ cleanTranscript " \"x\":1!  y " = "x1! y" := by
  refine ⟨rfl, rfl, rfl, ?_, by decide, by decide, by decide, by decide, by decide⟩
  rw [List.all_eq_true]
  intro c hc
  have h1 : c ∈ trimWsChars ((collapseWsChars t.data).filter keepTranscriptChar) := hc
  unfold trimWsChars at h1
  rw [List.mem_reverse] at h1
  have h2 := (List.dropWhile_sublist jsWs).mem h1
  rw [List.mem_reverse] at h2
  have h3 := (List.dropWhile_sublist jsWs).mem h2
  exact (List.mem_filter.mp h3).2

end YtTweet
